import Mathlib

/-!
Shallow embedding of src/GarnetDiffusion/functions/MAGEMin_functions.py.

Floats are modelled by rationals, numpy arrays by lists, the Python
try/except lookup pattern by Option pattern matching (a bare except that
yields 0.0 becomes a default of 0 on the failing branch).  The external
MAGEMin solver and the stoichiometric converter imported from
bulk_rock_functions are external collaborators and are taken as function
parameters, so every theorem quantifies over them.
-/

/-- One entry of MAGEMinOutput.SS_vec: a solution phase with end member
names and fractions, a composition vector (mole and weight basis) and a
density. -/
structure SSData where
  emNames : List String := []
  emFrac : List ℚ := []
  emFrac_wt : List ℚ := []
  Comp : List ℚ := []
  Comp_wt : List ℚ := []
  rho : ℚ := 0
deriving DecidableEq, Inhabited

/-- One entry of MAGEMinOutput.PP_vec: a pure phase; only its density is
read by this module. -/
structure PPData where
  rho : ℚ := 0
deriving DecidableEq, Inhabited

/-- The fields of the MAGEMin solver output object that
MAGEMin_functions.py reads: phase names, per-phase mole and weight
fractions, solution and pure phase vectors, the oxide list and the bulk
vectors in both bases. -/
structure MAGEMinOutput where
  ph : List String := []
  ph_frac : List ℚ := []
  ph_frac_wt : List ℚ := []
  SS_vec : List SSData := []
  PP_vec : List PPData := []
  n_SS : ℕ := 0
  oxides : List String := []
  bulk : List ℚ := []
  bulk_wt : List ℚ := []
deriving DecidableEq, Inhabited

/-- Python list.index: position of the first occurrence, none when the
element is absent (where Python raises ValueError). -/
def index_of (x : String) : List String → Option ℕ
  | [] => none
  | y :: ys => if y = x then some 0 else (index_of x ys).map (fun n => n + 1)

/-- extract_phase_mol_frac: MAGEMinOutput.ph_frac at the index of the
phase in MAGEMinOutput.ph; the try/except yields 0.0 when the phase is
absent (or the index is out of range). -/
def extract_phase_mol_frac (phase : String) (out : MAGEMinOutput) : ℚ :=
  match index_of phase out.ph with
  | some i => out.ph_frac.getD i 0
  | none => 0

/-- extract_phase_wt_frac: as extract_phase_mol_frac but on ph_frac_wt. -/
def extract_phase_wt_frac (phase : String) (out : MAGEMinOutput) : ℚ :=
  match index_of phase out.ph with
  | some i => out.ph_frac_wt.getD i 0
  | none => 0

/-- extract_end_member_mol_frac: SS_vec[ph.index(phase)].emFrac at the
index of the end member in that entry's emNames; any failing lookup in
the chain yields 0.0 via the bare except. -/
def extract_end_member_mol_frac (phase : String) (out : MAGEMinOutput)
    (end_member : String) : ℚ :=
  match index_of phase out.ph with
  | some pi =>
    match out.SS_vec.get? pi with
    | some ss =>
      match index_of end_member ss.emNames with
      | some ei => ss.emFrac.getD ei 0
      | none => 0
    | none => 0
  | none => 0

/-- Density of sub-phase j in extract_phase_vol_frac: SS_vec[j].rho when
j < n_SS, else PP_vec[j - n_SS].rho. -/
def sub_phase_rho (out : MAGEMinOutput) (j : ℕ) : ℚ :=
  if j < out.n_SS then (out.SS_vec.getD j default).rho
  else (out.PP_vec.getD (j - out.n_SS) default).rho

/-- The list comprehension id = [j for j, p in enumerate(out.ph) if p == ph]
inside extract_phase_vol_frac. -/
def same_name_ids (out : MAGEMinOutput) (phname : String) : List ℕ :=
  (List.range out.ph.length).filter (fun j => out.ph.getD j "" == phname)

/-- One entry of the unnormalized volume vector V of
extract_phase_vol_frac: the summed weight fraction of the same-named
sub-phases divided by their average density (0 when the id list is
empty, matching the guarded branch). -/
def unnorm_vol_entry (out : MAGEMinOutput) (phname : String) : ℚ :=
  if same_name_ids out phname = [] then 0
  else ((same_name_ids out phname).map (fun j => out.ph_frac_wt.getD j 0)).sum
    / (((same_name_ids out phname).map (sub_phase_rho out)).sum
        / ((same_name_ids out phname).length : ℚ))

/-- The unnormalized volume vector V of extract_phase_vol_frac, one
entry per assemblage member. -/
def unnorm_vol (out : MAGEMinOutput) : List ℚ :=
  out.ph.map (unnorm_vol_entry out)

/-- The normalization V /= np.sum(V) of extract_phase_vol_frac. -/
def reconstructed_vol_fracs (out : MAGEMinOutput) : List ℚ :=
  (unnorm_vol out).map (fun v => v / (unnorm_vol out).sum)

/-- extract_phase_vol_frac: the normalized reconstructed volume at the
phase index, 0.0 when the phase is absent. -/
def extract_phase_vol_frac (phase : String) (out : MAGEMinOutput) : ℚ :=
  match index_of phase out.ph with
  | some i => (reconstructed_vol_fracs out).getD i 0
  | none => 0

/-- The external MAGEMin single point minimization call: pressure,
temperature, bulk composition, oxide list and basis flag to one output
(the opaque data handle is absorbed into the function). -/
abbrev Solver := ℚ → ℚ → List ℚ → List String → String → MAGEMinOutput

/-- The dictionary of five garnet end member fractions handed to
calculate_molar_fractions. -/
structure GarnetFractions where
  py : ℚ
  alm : ℚ
  gr : ℚ
  spss : ℚ
  kho : ℚ
deriving DecidableEq, Inhabited

/-- The four element molar fractions returned by
calculate_molar_fractions. -/
structure ElementFractions where
  Mg : ℚ
  Mn : ℚ
  Fe : ℚ
  Ca : ℚ
deriving DecidableEq, Inhabited

/-- calculate_molar_fractions is imported from bulk_rock_functions (an
external collaborator per the design); it is passed in as a function. -/
abbrev Converter := GarnetFractions → ElementFractions

/-- The tuple returned by gt_single_point_calc_endmembers. -/
structure SinglePointResult where
  gt_frac : ℚ
  gt_wt : ℚ
  gt_vol : ℚ
  py : ℚ
  alm : ℚ
  spss : ℚ
  gr : ℚ
  kho : ℚ
  out : MAGEMinOutput
deriving DecidableEq, Inhabited

/-- gt_single_point_calc_endmembers: one solver call, then the garnet
fraction and end member extractions guarded by the check that "g" is in
the assemblage (all extracted values stay 0.0 otherwise). -/
def gt_single_point_calc_endmembers (solver : Solver) (P T : ℚ) (X : List ℚ)
    (Xoxides : List String) (sys_in : String) : SinglePointResult :=
  let out := solver P T X Xoxides sys_in
  if "g" ∈ out.ph then
    { gt_frac := extract_phase_mol_frac "g" out
      gt_wt := extract_phase_wt_frac "g" out
      gt_vol := extract_phase_vol_frac "g" out
      py := extract_end_member_mol_frac "g" out "py"
      alm := extract_end_member_mol_frac "g" out "alm"
      spss := extract_end_member_mol_frac "g" out "spss"
      gr := extract_end_member_mol_frac "g" out "gr"
      kho := extract_end_member_mol_frac "g" out "kho"
      out := out }
  else
    { gt_frac := 0, gt_wt := 0, gt_vol := 0, py := 0, alm := 0, spss := 0,
      gr := 0, kho := 0, out := out }

/-- The garnet_fractions dictionary built in garnet_over_path from the
single point result. -/
def garnet_fractions (r : SinglePointResult) : GarnetFractions :=
  { py := r.py, alm := r.alm, gr := r.gr, spss := r.spss, kho := r.kho }

/-- out.SS_vec[out.ph.index("g")].Comp_wt as read by the fractionation
update (only reached when the garnet fraction is positive, hence "g" is
present). -/
def garnet_Comp_wt (out : MAGEMinOutput) : List ℚ :=
  (out.SS_vec.getD ((index_of "g" out.ph).getD 0) default).Comp_wt

/-- out.SS_vec[out.ph.index("g")].Comp as read by the fractionation
update. -/
def garnet_Comp (out : MAGEMinOutput) : List ℚ :=
  (out.SS_vec.getD ((index_of "g" out.ph).getD 0) default).Comp

/-- The basis branch of the fractionation update in garnet_over_path:
X = out.bulk_wt - out.bulk_wt * Comp_wt * d_gt_wt_frac[i] when sys_in is
"wt", the mole analogue when sys_in is "mol", and X left unchanged for
any other value of sys_in (the else branch is commented out in the
source). -/
def fractionate_bulk (sys_in : String) (out : MAGEMinOutput) (dMol dWt : ℚ)
    (X : List ℚ) : List ℚ :=
  if sys_in = "wt" then
    List.zipWith (fun b c => b - b * c * dWt) out.bulk_wt (garnet_Comp_wt out)
  else if sys_in = "mol" then
    List.zipWith (fun b c => b - b * c * dMol) out.bulk (garnet_Comp out)
  else X

/-- The running state of the garnet_over_path loop: the bulk composition
X and oxide list Xoxides passed to the next solver call, the step 0 raw
fractions (gt_mol_frac_initial and friends), and the previous step's
zeroed fractions read back as gt_mol_frac[i-1] / gt_wt_frac[i-1]. -/
structure PathState where
  X : List ℚ
  Xoxides : List String
  gt_mol_frac_initial : ℚ
  gt_wt_frac_initial : ℚ
  gt_vol_frac_initial : ℚ
  prev_gt_mol_frac : ℚ
  prev_gt_wt_frac : ℚ
deriving DecidableEq, Inhabited

/-- One row of the arrays returned by garnet_over_path: the
baseline-zeroed mole, weight and volume fractions, the per-step deltas
and the four element fractions (py_arr .. kho_arr are filled in the
source but not returned). -/
structure StepRecord where
  gt_mol_frac : ℚ
  gt_wt_frac : ℚ
  gt_vol_frac : ℚ
  d_gt_mol_frac : ℚ
  d_gt_wt_frac : ℚ
  Mgi : ℚ
  Mni : ℚ
  Fei : ℚ
  Cai : ℚ
deriving DecidableEq, Inhabited

/-- One iteration of the garnet_over_path loop body at (Pi, Ti): the
single point evaluation with the current state's bulk and oxides, the
baseline capture at step 0 (isFirst), the zeroed fractions, the deltas
(computed only under the fractionate flag, else the pre-sized zeros
remain), and the conditional bulk/oxide update. -/
def garnet_step (solver : Solver) (cnv : Converter) (sys_in : String)
    (fractionate : Bool) (Pi Ti : ℚ) (isFirst : Bool) (st : PathState) :
    StepRecord × PathState :=
  let r := gt_single_point_calc_endmembers solver Pi Ti st.X st.Xoxides sys_in
  let ef := cnv (garnet_fractions r)
  let iMol := if isFirst then r.gt_frac else st.gt_mol_frac_initial
  let iWt := if isFirst then r.gt_wt else st.gt_wt_frac_initial
  let iVol := if isFirst then r.gt_vol else st.gt_vol_frac_initial
  let gMol := r.gt_frac - iMol
  let gWt := r.gt_wt - iWt
  let gVol := r.gt_vol - iVol
  let dMol := if fractionate then
      (if isFirst then gMol else gMol - st.prev_gt_mol_frac) else 0
  let dWt := if fractionate then
      (if isFirst then gWt else gWt - st.prev_gt_wt_frac) else 0
  let Xnew := if fractionate then
      (if 0 < r.gt_frac then fractionate_bulk sys_in r.out dMol dWt st.X
       else st.X)
    else st.X
  let XoxNew := if fractionate then
      (if 0 < r.gt_frac then r.out.oxides else st.Xoxides)
    else st.Xoxides
  ({ gt_mol_frac := gMol, gt_wt_frac := gWt, gt_vol_frac := gVol,
     d_gt_mol_frac := dMol, d_gt_wt_frac := dWt,
     Mgi := ef.Mg, Mni := ef.Mn, Fei := ef.Fe, Cai := ef.Ca },
   { X := Xnew, Xoxides := XoxNew,
     gt_mol_frac_initial := iMol, gt_wt_frac_initial := iWt,
     gt_vol_frac_initial := iVol,
     prev_gt_mol_frac := gMol, prev_gt_wt_frac := gWt })

/-- The for loop of garnet_over_path over the remaining P-T points,
threading the state through garnet_step; isFirst marks index 0. -/
def garnet_over_path_loop (solver : Solver) (cnv : Converter) (sys_in : String)
    (fractionate : Bool) : List (ℚ × ℚ) → Bool → PathState → List StepRecord
  | [], _, _ => []
  | pt :: rest, isFirst, st =>
    (garnet_step solver cnv sys_in fractionate pt.1 pt.2 isFirst st).1 ::
      garnet_over_path_loop solver cnv sys_in fractionate rest false
        (garnet_step solver cnv sys_in fractionate pt.1 pt.2 isFirst st).2

/-- The state at the top of the loop: the caller's X and Xoxides, and the
not-yet-assigned baseline and previous-step slots (never read before
step 0 writes them). -/
def init_state (X : List ℚ) (Xoxides : List String) : PathState :=
  { X := X, Xoxides := Xoxides, gt_mol_frac_initial := 0,
    gt_wt_frac_initial := 0, gt_vol_frac_initial := 0,
    prev_gt_mol_frac := 0, prev_gt_wt_frac := 0 }

/-- garnet_over_path: the loop over the zipped P-T path starting from the
caller supplied bulk composition and oxide list; each list entry is one
row of the returned arrays. -/
def garnet_over_path (solver : Solver) (cnv : Converter) (P T : List ℚ)
    (X : List ℚ) (Xoxides : List String) (sys_in : String)
    (fractionate : Bool) : List StepRecord :=
  garnet_over_path_loop solver cnv sys_in fractionate (P.zip T) true
    (init_state X Xoxides)

/-- The bulk composition vector handed to the solver at each step of the
loop (the X argument of the gt_single_point_calc_endmembers call made by
the iteration). -/
def path_bulks (solver : Solver) (cnv : Converter) (sys_in : String)
    (fractionate : Bool) : List (ℚ × ℚ) → Bool → PathState → List (List ℚ)
  | [], _, _ => []
  | pt :: rest, isFirst, st =>
    st.X :: path_bulks solver cnv sys_in fractionate rest false
      (garnet_step solver cnv sys_in fractionate pt.1 pt.2 isFirst st).2

/-- The raw single point evaluation produced at each step of the loop
(the tuple gt_single_point_calc_endmembers returns before any baseline
zeroing). -/
def path_raws (solver : Solver) (cnv : Converter) (sys_in : String)
    (fractionate : Bool) : List (ℚ × ℚ) → Bool → PathState →
    List SinglePointResult
  | [], _, _ => []
  | pt :: rest, isFirst, st =>
    gt_single_point_calc_endmembers solver pt.1 pt.2 st.X st.Xoxides sys_in ::
      path_raws solver cnv sys_in fractionate rest false
        (garnet_step solver cnv sys_in fractionate pt.1 pt.2 isFirst st).2

/-- Concrete solver output for the test fixtures: a one-phase assemblage
holding garnet at fraction f. -/
def testOut (f : ℚ) : MAGEMinOutput :=
  { ph := ["g"], ph_frac := [f], ph_frac_wt := [f],
    SS_vec := [{ emNames := ["py", "alm", "spss", "gr", "kho"],
                 emFrac := [1, 0, 0, 0, 0], emFrac_wt := [1, 0, 0, 0, 0],
                 Comp := [1/2, 1/2], Comp_wt := [1/2, 1/2], rho := 1 }],
    PP_vec := [], n_SS := 1, oxides := ["SiO2", "Al2O3"],
    bulk := [2, 3], bulk_wt := [2, 3] }

/-- Concrete solver for the test fixtures: the garnet fraction equals the
pressure coordinate, so a path of pressures realizes any raw fraction
sequence. -/
def testSolver : Solver := fun p _ _ _ _ => testOut p

/-- Concrete solver output with no garnet in the assemblage. -/
def testOutNoG : MAGEMinOutput :=
  { ph := ["q"], ph_frac := [1], ph_frac_wt := [1],
    SS_vec := [], PP_vec := [{ rho := 2 }], n_SS := 0,
    oxides := ["SiO2"], bulk := [5], bulk_wt := [5] }

/-- Concrete solver whose assemblage never contains garnet. -/
def testSolverNoG : Solver := fun _ _ _ _ _ => testOutNoG

/-- Concrete converter for the test fixtures (all elements 0). -/
def conv0 : Converter := fun _ => { Mg := 0, Mn := 0, Fe := 0, Ca := 0 }

/-- Concrete well-formed two-phase assemblage (one solution phase, one
pure phase) used to witness the volume reconstruction. -/
def testOutTwoPhase : MAGEMinOutput :=
  { ph := ["g", "w"], ph_frac := [1, 1], ph_frac_wt := [1, 1],
    SS_vec := [{ emNames := ["py"], emFrac := [1], emFrac_wt := [1],
                 Comp := [1], Comp_wt := [1], rho := 3 }],
    PP_vec := [{ rho := 2 }], n_SS := 1,
    oxides := ["SiO2"], bulk := [1], bulk_wt := [1] }


/-! ### Helper lemmas about the loop body -/

theorem step_prev_mol (solver : Solver) (cnv : Converter) (sys : String)
    (fr : Bool) (p t : ℚ) (b : Bool) (st : PathState) :
    (garnet_step solver cnv sys fr p t b st).2.prev_gt_mol_frac
      = (garnet_step solver cnv sys fr p t b st).1.gt_mol_frac := rfl

theorem step_prev_wt (solver : Solver) (cnv : Converter) (sys : String)
    (fr : Bool) (p t : ℚ) (b : Bool) (st : PathState) :
    (garnet_step solver cnv sys fr p t b st).2.prev_gt_wt_frac
      = (garnet_step solver cnv sys fr p t b st).1.gt_wt_frac := rfl

theorem step_d_mol_first (solver : Solver) (cnv : Converter) (sys : String)
    (p t : ℚ) (st : PathState) :
    (garnet_step solver cnv sys true p t true st).1.d_gt_mol_frac
      = (garnet_step solver cnv sys true p t true st).1.gt_mol_frac := rfl

theorem step_d_wt_first (solver : Solver) (cnv : Converter) (sys : String)
    (p t : ℚ) (st : PathState) :
    (garnet_step solver cnv sys true p t true st).1.d_gt_wt_frac
      = (garnet_step solver cnv sys true p t true st).1.gt_wt_frac := rfl

theorem step_d_mol_cons (solver : Solver) (cnv : Converter) (sys : String)
    (p t : ℚ) (st : PathState) :
    (garnet_step solver cnv sys true p t false st).1.d_gt_mol_frac
      = (garnet_step solver cnv sys true p t false st).1.gt_mol_frac
        - st.prev_gt_mol_frac := rfl

theorem step_d_wt_cons (solver : Solver) (cnv : Converter) (sys : String)
    (p t : ℚ) (st : PathState) :
    (garnet_step solver cnv sys true p t false st).1.d_gt_wt_frac
      = (garnet_step solver cnv sys true p t false st).1.gt_wt_frac
        - st.prev_gt_wt_frac := rfl

theorem step_d_mol_off (solver : Solver) (cnv : Converter) (sys : String)
    (p t : ℚ) (b : Bool) (st : PathState) :
    (garnet_step solver cnv sys false p t b st).1.d_gt_mol_frac = 0 := rfl

theorem step_d_wt_off (solver : Solver) (cnv : Converter) (sys : String)
    (p t : ℚ) (b : Bool) (st : PathState) :
    (garnet_step solver cnv sys false p t b st).1.d_gt_wt_frac = 0 := rfl

theorem step_X_off (solver : Solver) (cnv : Converter) (sys : String)
    (p t : ℚ) (b : Bool) (st : PathState) :
    (garnet_step solver cnv sys false p t b st).2.X = st.X := rfl

theorem step_init_mol_kept (solver : Solver) (cnv : Converter) (sys : String)
    (fr : Bool) (p t : ℚ) (st : PathState) :
    (garnet_step solver cnv sys fr p t false st).2.gt_mol_frac_initial
      = st.gt_mol_frac_initial := rfl

theorem step_init_wt_kept (solver : Solver) (cnv : Converter) (sys : String)
    (fr : Bool) (p t : ℚ) (st : PathState) :
    (garnet_step solver cnv sys fr p t false st).2.gt_wt_frac_initial
      = st.gt_wt_frac_initial := rfl

theorem step_init_vol_kept (solver : Solver) (cnv : Converter) (sys : String)
    (fr : Bool) (p t : ℚ) (st : PathState) :
    (garnet_step solver cnv sys fr p t false st).2.gt_vol_frac_initial
      = st.gt_vol_frac_initial := rfl

theorem step_init_mol_set (solver : Solver) (cnv : Converter) (sys : String)
    (fr : Bool) (p t : ℚ) (st : PathState) :
    (garnet_step solver cnv sys fr p t true st).2.gt_mol_frac_initial
      = (gt_single_point_calc_endmembers solver p t st.X st.Xoxides sys).gt_frac
      := rfl

theorem step_g_mol (solver : Solver) (cnv : Converter) (sys : String)
    (fr : Bool) (p t : ℚ) (st : PathState) :
    (garnet_step solver cnv sys fr p t false st).1.gt_mol_frac
      = (gt_single_point_calc_endmembers solver p t st.X st.Xoxides sys).gt_frac
        - st.gt_mol_frac_initial := rfl

theorem step_g_mol_first (solver : Solver) (cnv : Converter) (sys : String)
    (fr : Bool) (p t : ℚ) (st : PathState) :
    (garnet_step solver cnv sys fr p t true st).1.gt_mol_frac = 0 := by
  simp [garnet_step]

theorem step_g_wt_first (solver : Solver) (cnv : Converter) (sys : String)
    (fr : Bool) (p t : ℚ) (st : PathState) :
    (garnet_step solver cnv sys fr p t true st).1.gt_wt_frac = 0 := by
  simp [garnet_step]

theorem step_g_vol_first (solver : Solver) (cnv : Converter) (sys : String)
    (fr : Bool) (p t : ℚ) (st : PathState) :
    (garnet_step solver cnv sys fr p t true st).1.gt_vol_frac = 0 := by
  simp [garnet_step]

theorem loop_cons (solver : Solver) (cnv : Converter) (sys : String)
    (fr : Bool) (pt : ℚ × ℚ) (rest : List (ℚ × ℚ)) (b : Bool) (st : PathState) :
    garnet_over_path_loop solver cnv sys fr (pt :: rest) b st
      = (garnet_step solver cnv sys fr pt.1 pt.2 b st).1 ::
          garnet_over_path_loop solver cnv sys fr rest false
            (garnet_step solver cnv sys fr pt.1 pt.2 b st).2 := rfl

theorem loop_length (solver : Solver) (cnv : Converter) (sys : String)
    (fr : Bool) :
    ∀ (path : List (ℚ × ℚ)) (b : Bool) (st : PathState),
      (garnet_over_path_loop solver cnv sys fr path b st).length = path.length
  | [], _, _ => rfl
  | _ :: rest, b, st => by
    simp [garnet_over_path_loop, loop_length solver cnv sys fr rest false]

/-! ### Concrete evaluation helpers for the fixtures -/

theorem testSolver_gt_frac (p t : ℚ) (X : List ℚ) (ox : List String)
    (sys : String) :
    (gt_single_point_calc_endmembers testSolver p t X ox sys).gt_frac = p := by
  simp [gt_single_point_calc_endmembers, testSolver, testOut,
    extract_phase_mol_frac, index_of]

theorem testSolverNoG_gt_frac (p t : ℚ) (X : List ℚ) (ox : List String)
    (sys : String) :
    (gt_single_point_calc_endmembers testSolverNoG p t X ox sys).gt_frac
      = 0 := by
  simp [gt_single_point_calc_endmembers, testSolverNoG, testOutNoG]

/-- Shared form of the fractionation update when the basis string matches
neither "wt" nor "mol": the bulk vector survives while the oxide list is
overwritten with the solver's. -/
theorem step_invalid_basis (solver : Solver) (cnv : Converter) (sys : String)
    (p t : ℚ) (b : Bool) (st : PathState)
    (h : 0 < (gt_single_point_calc_endmembers solver p t st.X st.Xoxides
        sys).gt_frac)
    (hw : sys ≠ "wt") (hm : sys ≠ "mol") :
    (garnet_step solver cnv sys true p t b st).2.X = st.X
      ∧ (garnet_step solver cnv sys true p t b st).2.Xoxides
        = (gt_single_point_calc_endmembers solver p t st.X st.Xoxides
            sys).out.oxides := by
  constructor
  · simp [garnet_step, fractionate_bulk, h, hw, hm]
  · simp [garnet_step, h]

/-! ### Claim theorems -/

/-- C2: at a fractionating step with strictly positive raw garnet mole
fraction, when the basis flag is "wt" (resp. "mol") the bulk composition
carried into the next step is old bulk minus old bulk times the garnet
composition times the step delta, elementwise, with the bulk vector and
garnet composition vector taken from the solver result of this step, and
the oxide list is replaced by the solver-reported one. -/
theorem C2_fractionation_mass_balance (solver : Solver) (cnv : Converter)
    (sys : String) (p t : ℚ) (b : Bool) (st : PathState)
    (h : 0 < (gt_single_point_calc_endmembers solver p t st.X st.Xoxides
        sys).gt_frac) :
    (sys = "wt" →
      (garnet_step solver cnv sys true p t b st).2.X
        = List.zipWith
            (fun bk c => bk - bk * c *
              (garnet_step solver cnv sys true p t b st).1.d_gt_wt_frac)
            (gt_single_point_calc_endmembers solver p t st.X st.Xoxides
              sys).out.bulk_wt
            (garnet_Comp_wt (gt_single_point_calc_endmembers solver p t st.X
              st.Xoxides sys).out))
    ∧ (sys = "mol" →
      (garnet_step solver cnv sys true p t b st).2.X
        = List.zipWith
            (fun bk c => bk - bk * c *
              (garnet_step solver cnv sys true p t b st).1.d_gt_mol_frac)
            (gt_single_point_calc_endmembers solver p t st.X st.Xoxides
              sys).out.bulk
            (garnet_Comp (gt_single_point_calc_endmembers solver p t st.X
              st.Xoxides sys).out))
    ∧ (garnet_step solver cnv sys true p t b st).2.Xoxides
        = (gt_single_point_calc_endmembers solver p t st.X st.Xoxides
            sys).out.oxides := by
  refine ⟨fun hw => ?_, fun hm => ?_, ?_⟩
  · subst hw
    simp [garnet_step, fractionate_bulk, h]
  · subst hm
    simp [garnet_step, fractionate_bulk, h]
  · simp [garnet_step, h]

theorem C2_fractionation_mass_balance_witness :
    (0 < (gt_single_point_calc_endmembers testSolver (1/2) 0 [2, 3]
        ["SiO2", "Al2O3"] "wt").gt_frac)
    ∧ (garnet_step testSolver conv0 "wt" true (1/2) 0 true
        (init_state [2, 3] ["SiO2", "Al2O3"])).2.X
      = List.zipWith
          (fun bk c => bk - bk * c *
            (garnet_step testSolver conv0 "wt" true (1/2) 0 true
              (init_state [2, 3] ["SiO2", "Al2O3"])).1.d_gt_wt_frac)
          (gt_single_point_calc_endmembers testSolver (1/2) 0 [2, 3]
            ["SiO2", "Al2O3"] "wt").out.bulk_wt
          (garnet_Comp_wt (gt_single_point_calc_endmembers testSolver (1/2) 0
            [2, 3] ["SiO2", "Al2O3"] "wt").out) := by
  have h : 0 < (gt_single_point_calc_endmembers testSolver (1/2) 0 [2, 3]
      ["SiO2", "Al2O3"] "wt").gt_frac := by
    rw [testSolver_gt_frac]
    norm_num
  exact ⟨h, (C2_fractionation_mass_balance testSolver conv0 "wt" (1/2) 0 true
    (init_state [2, 3] ["SiO2", "Al2O3"]) h).1 rfl⟩

/-- C3: at a fractionating step whose raw garnet mole fraction is not
strictly positive (garnet absent included), the bulk composition carried
into the next step is exactly the one used at this step. -/
theorem C3_bulk_frozen_without_garnet (solver : Solver) (cnv : Converter)
    (sys : String) (p t : ℚ) (b : Bool) (st : PathState)
    (h : (gt_single_point_calc_endmembers solver p t st.X st.Xoxides
        sys).gt_frac ≤ 0) :
    (garnet_step solver cnv sys true p t b st).2.X = st.X := by
  simp [garnet_step, not_lt.mpr h]

theorem C3_bulk_frozen_without_garnet_witness :
    ((gt_single_point_calc_endmembers testSolverNoG 8 0 [5]
        ["SiO2"] "wt").gt_frac ≤ 0)
    ∧ (garnet_step testSolverNoG conv0 "wt" true 8 0 true
        (init_state [5] ["SiO2"])).2.X = [5] := by
  have h : (gt_single_point_calc_endmembers testSolverNoG 8 0 [5]
      ["SiO2"] "wt").gt_frac ≤ 0 := by
    rw [testSolverNoG_gt_frac]
  exact ⟨h, C3_bulk_frozen_without_garnet testSolverNoG conv0 "wt" 8 0 true
    (init_state [5] ["SiO2"]) h⟩

/-- C10: at a fractionating step with positive raw garnet fraction but a
basis flag matching neither "wt" nor "mol", the oxide list carried to the
following steps is replaced by the solver-reported one while the bulk
composition vector is left unchanged. -/
theorem C10_oxides_swapped_bulk_stale (solver : Solver) (cnv : Converter)
    (sys : String) (p t : ℚ) (b : Bool) (st : PathState)
    (h : 0 < (gt_single_point_calc_endmembers solver p t st.X st.Xoxides
        sys).gt_frac)
    (hw : sys ≠ "wt") (hm : sys ≠ "mol") :
    (garnet_step solver cnv sys true p t b st).2.X = st.X
      ∧ (garnet_step solver cnv sys true p t b st).2.Xoxides
        = (gt_single_point_calc_endmembers solver p t st.X st.Xoxides
            sys).out.oxides :=
  step_invalid_basis solver cnv sys p t b st h hw hm

theorem C10_oxides_swapped_bulk_stale_witness :
    (0 < (gt_single_point_calc_endmembers testSolver (1/4) 0 [2, 3]
        ["FeO", "MgO"] "xyz").gt_frac)
    ∧ ("xyz" : String) ≠ "wt" ∧ ("xyz" : String) ≠ "mol"
    ∧ ((garnet_step testSolver conv0 "xyz" true (1/4) 0 true
          (init_state [2, 3] ["FeO", "MgO"])).2.X = [2, 3]
        ∧ (garnet_step testSolver conv0 "xyz" true (1/4) 0 true
            (init_state [2, 3] ["FeO", "MgO"])).2.Xoxides
          = (gt_single_point_calc_endmembers testSolver (1/4) 0 [2, 3]
              ["FeO", "MgO"] "xyz").out.oxides) := by
  have h : 0 < (gt_single_point_calc_endmembers testSolver (1/4) 0 [2, 3]
      ["FeO", "MgO"] "xyz").gt_frac := by
    rw [testSolver_gt_frac]
    norm_num
  exact ⟨h, by decide, by decide,
    C10_oxides_swapped_bulk_stale testSolver conv0 "xyz" (1/4) 0 true
      (init_state [2, 3] ["FeO", "MgO"]) h (by decide) (by decide)⟩

/-- C4: the source does not raise on a basis flag outside wt and mol;
at a concrete fractionating step with growing garnet and basis "weight"
the update is silently skipped, the bulk vector passing through
unchanged.  This theorem documents the code behavior the claim rules
out. -/
theorem C4_silent_skip_on_invalid_basis :
    (0 < (gt_single_point_calc_endmembers testSolver (1/2) 0 [2, 3]
        ["SiO2", "Al2O3"] "weight").gt_frac)
    ∧ (garnet_step testSolver conv0 "weight" true (1/2) 0 true
        (init_state [2, 3] ["SiO2", "Al2O3"])).2.X = [2, 3] := by
  have h : 0 < (gt_single_point_calc_endmembers testSolver (1/2) 0 [2, 3]
      ["SiO2", "Al2O3"] "weight").gt_frac := by
    rw [testSolver_gt_frac]
    norm_num
  exact ⟨h, (step_invalid_basis testSolver conv0 "weight" (1/2) 0 true
    (init_state [2, 3] ["SiO2", "Al2O3"]) h (by decide) (by decide)).1⟩

theorem path_bulks_off (solver : Solver) (cnv : Converter) (sys : String) :
    ∀ (path : List (ℚ × ℚ)) (b : Bool) (st : PathState),
      path_bulks solver cnv sys false path b st
        = List.replicate path.length st.X
  | [], _, _ => rfl
  | pt :: rest, b, st => by
    rw [path_bulks, path_bulks_off solver cnv sys rest false, step_X_off]
    rfl

/-- C5: with fractionation disabled, the bulk composition handed to the
solver is the caller's vector, unchanged, at every step of the path. -/
theorem C5_constant_bulk_no_fractionation (solver : Solver) (cnv : Converter)
    (P T Xc : List ℚ) (Xox : List String) (sys : String) :
    path_bulks solver cnv sys false (P.zip T) true (init_state Xc Xox)
      = List.replicate (P.zip T).length Xc := by
  rw [path_bulks_off]
  rfl

/-- C6: on a nonempty path the reported growth at step 0 is exactly zero
in both mole and weight fraction, whatever the solver returns there,
because the step 0 baseline is subtracted from itself. -/
theorem C6_zero_growth_at_step0 (solver : Solver) (cnv : Converter)
    (P T Xc : List ℚ) (Xox : List String) (sys : String) (fr : Bool)
    (h : garnet_over_path solver cnv P T Xc Xox sys fr ≠ []) :
    ((garnet_over_path solver cnv P T Xc Xox sys fr).headD
        default).gt_mol_frac = 0
    ∧ ((garnet_over_path solver cnv P T Xc Xox sys fr).headD
        default).gt_wt_frac = 0 := by
  unfold garnet_over_path at h ⊢
  cases hz : P.zip T with
  | nil =>
    rw [hz] at h
    simp [garnet_over_path_loop] at h
  | cons pt rest =>
    rw [loop_cons]
    simp [step_g_mol_first, step_g_wt_first]

theorem C6_zero_growth_at_step0_witness :
    (garnet_over_path testSolver conv0 [1] [0] [2, 3] ["SiO2", "Al2O3"]
        "wt" false ≠ [])
    ∧ ((garnet_over_path testSolver conv0 [1] [0] [2, 3] ["SiO2", "Al2O3"]
        "wt" false).headD default).gt_mol_frac = 0 := by
  have h : garnet_over_path testSolver conv0 [1] [0] [2, 3]
      ["SiO2", "Al2O3"] "wt" false ≠ [] := by
    simp [garnet_over_path, garnet_over_path_loop]
  exact ⟨h, (C6_zero_growth_at_step0 testSolver conv0 [1] [0] [2, 3]
    ["SiO2", "Al2O3"] "wt" false h).1⟩

theorem index_of_eq_none (x : String) :
    ∀ (l : List String), x ∉ l → index_of x l = none
  | [], _ => rfl
  | y :: ys, h => by
    have h1 : ¬ y = x := by
      intro e
      exact h (by simp [e])
    have h2 : x ∉ ys := fun m => h (List.mem_cons_of_mem _ m)
    simp [index_of, h1, index_of_eq_none x ys h2]

/-- C8: when the queried phase is absent from the assemblage the phase
mole and weight fraction and end member queries all return exactly 0,
and when the phase is present but the queried end member is absent from
that phase's end member list the end member query returns exactly 0; the
embedding is total, so no exception escapes. -/
theorem C8_absence_defaults_to_zero (out : MAGEMinOutput) (phase em : String) :
    (phase ∉ out.ph →
      extract_phase_mol_frac phase out = 0
      ∧ extract_phase_wt_frac phase out = 0
      ∧ extract_end_member_mol_frac phase out em = 0)
    ∧ (∀ i ss, index_of phase out.ph = some i →
        out.SS_vec.get? i = some ss → em ∉ ss.emNames →
        extract_end_member_mol_frac phase out em = 0) := by
  constructor
  · intro hp
    have hn := index_of_eq_none phase out.ph hp
    exact ⟨by simp [extract_phase_mol_frac, hn],
      by simp [extract_phase_wt_frac, hn],
      by simp [extract_end_member_mol_frac, hn]⟩
  · intro i ss hi hss hem
    simp only [extract_end_member_mol_frac, hi, hss,
      index_of_eq_none em ss.emNames hem]

theorem C8_absence_defaults_to_zero_witness :
    (("bio" ∉ (testOut (1/2)).ph)
      ∧ extract_phase_mol_frac "bio" (testOut (1/2)) = 0)
    ∧ (index_of "g" (testOut (1/2)).ph = some 0
      ∧ (testOut (1/2)).SS_vec.get? 0
          = some ((testOut (1/2)).SS_vec.getD 0 default)
      ∧ "zz" ∉ ((testOut (1/2)).SS_vec.getD 0 default).emNames
      ∧ extract_end_member_mol_frac "g" (testOut (1/2)) "zz" = 0) := by
  refine ⟨⟨by decide, ?_⟩, by decide, rfl, by decide, ?_⟩
  · exact ((C8_absence_defaults_to_zero (testOut (1/2)) "bio" "zz").1
      (by decide)).1
  · exact (C8_absence_defaults_to_zero (testOut (1/2)) "g" "zz").2 0
      ((testOut (1/2)).SS_vec.getD 0 default) (by decide) rfl (by decide)

theorem loop_delta_succ (solver : Solver) (cnv : Converter) (sys : String) :
    ∀ (path : List (ℚ × ℚ)) (b : Bool) (st : PathState) (i : ℕ),
      i + 1 < (garnet_over_path_loop solver cnv sys true path b st).length →
      (((garnet_over_path_loop solver cnv sys true path b st).getD (i + 1)
          default).d_gt_mol_frac
        = ((garnet_over_path_loop solver cnv sys true path b st).getD (i + 1)
            default).gt_mol_frac
          - ((garnet_over_path_loop solver cnv sys true path b st).getD i
              default).gt_mol_frac)
      ∧ (((garnet_over_path_loop solver cnv sys true path b st).getD (i + 1)
          default).d_gt_wt_frac
        = ((garnet_over_path_loop solver cnv sys true path b st).getD (i + 1)
            default).gt_wt_frac
          - ((garnet_over_path_loop solver cnv sys true path b st).getD i
              default).gt_wt_frac)
  | [], _, _, i => by
    intro h
    simp [garnet_over_path_loop] at h
  | pt :: rest, b, st, 0 => by
    intro h
    rw [loop_cons] at h ⊢
    cases hr : rest with
    | nil =>
      rw [hr] at h
      simp [garnet_over_path_loop] at h
    | cons qt rest2 =>
      rw [loop_cons]
      simp only [List.getD_cons_succ, List.getD_cons_zero]
      constructor
      · rw [step_d_mol_cons, step_prev_mol]
      · rw [step_d_wt_cons, step_prev_wt]
  | pt :: rest, b, st, (i + 1) => by
    intro h
    rw [loop_cons] at h ⊢
    simp only [List.getD_cons_succ]
    apply loop_delta_succ solver cnv sys rest false _ i
    simpa using h

theorem loop_d_off (solver : Solver) (cnv : Converter) (sys : String) :
    ∀ (path : List (ℚ × ℚ)) (b : Bool) (st : PathState),
      ∀ r ∈ garnet_over_path_loop solver cnv sys false path b st,
        r.d_gt_mol_frac = 0 ∧ r.d_gt_wt_frac = 0
  | [], _, _ => by simp [garnet_over_path_loop]
  | pt :: rest, b, st => by
    intro r hr
    rw [loop_cons] at hr
    rcases List.mem_cons.mp hr with h1 | h2
    · subst h1
      exact ⟨step_d_mol_off solver cnv sys pt.1 pt.2 b st,
        step_d_wt_off solver cnv sys pt.1 pt.2 b st⟩
    · exact loop_d_off solver cnv sys rest false _ r h2

/-- C1 (amended): with fractionation enabled the per-step deltas satisfy
delta[0] = growth[0] and delta[i+1] = growth[i+1] - growth[i] in both
mole and weight fraction; with fractionation disabled the returned delta
arrays keep their pre-sized zeros. -/
theorem C1_delta_recurrence (solver : Solver) (cnv : Converter)
    (P T Xc : List ℚ) (Xox : List String) (sys : String) :
    (((garnet_over_path solver cnv P T Xc Xox sys true).headD
        default).d_gt_mol_frac
      = ((garnet_over_path solver cnv P T Xc Xox sys true).headD
          default).gt_mol_frac
     ∧ ((garnet_over_path solver cnv P T Xc Xox sys true).headD
        default).d_gt_wt_frac
      = ((garnet_over_path solver cnv P T Xc Xox sys true).headD
          default).gt_wt_frac)
    ∧ (∀ i, i + 1 < (garnet_over_path solver cnv P T Xc Xox sys
        true).length →
      (((garnet_over_path solver cnv P T Xc Xox sys true).getD (i + 1)
          default).d_gt_mol_frac
        = ((garnet_over_path solver cnv P T Xc Xox sys true).getD (i + 1)
            default).gt_mol_frac
          - ((garnet_over_path solver cnv P T Xc Xox sys true).getD i
              default).gt_mol_frac)
      ∧ (((garnet_over_path solver cnv P T Xc Xox sys true).getD (i + 1)
          default).d_gt_wt_frac
        = ((garnet_over_path solver cnv P T Xc Xox sys true).getD (i + 1)
            default).gt_wt_frac
          - ((garnet_over_path solver cnv P T Xc Xox sys true).getD i
              default).gt_wt_frac))
    ∧ (∀ r ∈ garnet_over_path solver cnv P T Xc Xox sys false,
        r.d_gt_mol_frac = 0 ∧ r.d_gt_wt_frac = 0) := by
  unfold garnet_over_path
  refine ⟨?_, ?_, ?_⟩
  · cases hz : P.zip T with
    | nil =>
      exact ⟨rfl, rfl⟩
    | cons pt rest =>
      rw [loop_cons]
      simp only [List.headD_cons]
      exact ⟨step_d_mol_first solver cnv sys pt.1 pt.2 (init_state Xc Xox),
        step_d_wt_first solver cnv sys pt.1 pt.2 (init_state Xc Xox)⟩
  · intro i h
    exact loop_delta_succ solver cnv sys (P.zip T) true (init_state Xc Xox)
      i h
  · intro r hr
    exact loop_d_off solver cnv sys (P.zip T) true (init_state Xc Xox) r hr

theorem C1_delta_recurrence_witness :
    (0 + 1 < (garnet_over_path testSolver conv0 [0, 1/20, 3/25] [0, 0, 0]
        [2, 3] ["SiO2", "Al2O3"] "wt" true).length)
    ∧ ((garnet_over_path testSolver conv0 [0, 1/20, 3/25] [0, 0, 0] [2, 3]
        ["SiO2", "Al2O3"] "wt" true).getD (0 + 1)
          default).d_gt_mol_frac
      = ((garnet_over_path testSolver conv0 [0, 1/20, 3/25] [0, 0, 0] [2, 3]
          ["SiO2", "Al2O3"] "wt" true).getD (0 + 1)
            default).gt_mol_frac
        - ((garnet_over_path testSolver conv0 [0, 1/20, 3/25] [0, 0, 0]
            [2, 3] ["SiO2", "Al2O3"] "wt" true).getD 0
              default).gt_mol_frac := by
  have hlen : (garnet_over_path testSolver conv0 [0, 1/20, 3/25] [0, 0, 0]
      [2, 3] ["SiO2", "Al2O3"] "wt" true).length = 3 := by
    rw [garnet_over_path, loop_length]
    rfl
  have h : 0 + 1 < (garnet_over_path testSolver conv0 [0, 1/20, 3/25]
      [0, 0, 0] [2, 3] ["SiO2", "Al2O3"] "wt" true).length := by
    rw [hlen]
    norm_num
  exact ⟨h, ((C1_delta_recurrence testSolver conv0 [0, 1/20, 3/25] [0, 0, 0]
    [2, 3] ["SiO2", "Al2O3"] "wt").2.1 0 h).1⟩

/-- C1 (counterexample): on the claim's own 3-point scenario with raw
garnet mole fractions 0, 1/20 and 3/25 and fractionation disabled, the
returned per-step mole deltas are all zero, not 0, 1/20, 7/100: the delta
arrays are only filled when fractionation is enabled. -/
theorem C1_counterexample :
    (garnet_over_path testSolver conv0 [0, 1/20, 3/25] [0, 0, 0] [2, 3]
        ["SiO2", "Al2O3"] "wt" false).map StepRecord.d_gt_mol_frac
      = [0, 0, 0]
    ∧ (garnet_over_path testSolver conv0 [0, 1/20, 3/25] [0, 0, 0] [2, 3]
        ["SiO2", "Al2O3"] "wt" false).map StepRecord.d_gt_mol_frac
      ≠ [0, 1/20, 7/100] := by
  have hz : ∀ r ∈ garnet_over_path testSolver conv0 [0, 1/20, 3/25]
      [0, 0, 0] [2, 3] ["SiO2", "Al2O3"] "wt" false,
      r.d_gt_mol_frac = 0 := by
    intro r hr
    exact (loop_d_off testSolver conv0 "wt"
      ([0, 1/20, 3/25].zip [0, 0, 0]) true (init_state [2, 3]
        ["SiO2", "Al2O3"]) r hr).1
  have hlen : (garnet_over_path testSolver conv0 [0, 1/20, 3/25] [0, 0, 0]
      [2, 3] ["SiO2", "Al2O3"] "wt" false).length = 3 := by
    rw [garnet_over_path, loop_length]
    rfl
  have hmap : (garnet_over_path testSolver conv0 [0, 1/20, 3/25] [0, 0, 0]
      [2, 3] ["SiO2", "Al2O3"] "wt" false).map StepRecord.d_gt_mol_frac
      = List.replicate 3 (0 : ℚ) := by
    rw [List.eq_replicate_iff]
    constructor
    · rw [List.length_map, hlen]
    · intro x hx
      rcases List.mem_map.mp hx with ⟨r, hr, hrx⟩
      rw [← hrx]
      exact hz r hr
  constructor
  · rw [hmap]
    rfl
  · rw [hmap]
    intro hcontra
    have h1 := congrArg (fun l => l.getD 1 (0 : ℚ)) hcontra
    simp at h1

theorem sum_map_div (l : List ℚ) (c : ℚ) :
    (l.map (fun v => v / c)).sum = l.sum / c := by
  induction l with
  | nil => simp
  | cons a t ih => simp [ih, add_div]

theorem unnorm_vol_entry_pos (out : MAGEMinOutput)
    (hrho : ∀ j ∈ List.range out.ph.length, 0 < sub_phase_rho out j)
    (hwt : ∀ j ∈ List.range out.ph.length, 0 < out.ph_frac_wt.getD j 0)
    (phname : String) (hph : phname ∈ out.ph) :
    0 < unnorm_vol_entry out phname := by
  rcases List.mem_iff_getElem.mp hph with ⟨k, hk, hgetk⟩
  have hkmem : k ∈ same_name_ids out phname := by
    unfold same_name_ids
    refine List.mem_filter.mpr ⟨List.mem_range.mpr hk, ?_⟩
    rw [List.getD_eq_getElem _ _ hk, hgetk]
    simp
  have hids_ne : same_name_ids out phname ≠ [] :=
    List.ne_nil_of_mem hkmem
  have hmem_lt : ∀ j ∈ same_name_ids out phname, j ∈ List.range
      out.ph.length := by
    intro j hj
    exact (List.mem_filter.mp hj).1
  rw [unnorm_vol_entry, if_neg hids_ne]
  apply div_pos
  · apply List.sum_pos
    · intro a ha
      rcases List.mem_map.mp ha with ⟨j, hj, hja⟩
      rw [← hja]
      exact hwt j (hmem_lt j hj)
    · exact fun h => hids_ne (List.map_eq_nil_iff.mp h)
  · apply div_pos
    · apply List.sum_pos
      · intro a ha
        rcases List.mem_map.mp ha with ⟨j, hj, hja⟩
        rw [← hja]
        exact hrho j (hmem_lt j hj)
      · exact fun h => hids_ne (List.map_eq_nil_iff.mp h)
    · exact_mod_cast List.length_pos.mpr hids_ne

/-- C9: when every sub-phase density and every weight fraction entry used
by the reconstruction is strictly positive and the assemblage is
nonempty, the reconstructed per-phase volume fractions sum to exactly 1
over the whole assemblage. -/
theorem C9_vol_fracs_sum_to_one (out : MAGEMinOutput) (hne : out.ph ≠ [])
    (hrho : ∀ j ∈ List.range out.ph.length, 0 < sub_phase_rho out j)
    (hwt : ∀ j ∈ List.range out.ph.length, 0 < out.ph_frac_wt.getD j 0) :
    (reconstructed_vol_fracs out).sum = 1 := by
  have hpos : ∀ v ∈ unnorm_vol out, 0 < v := by
    intro v hv
    rcases List.mem_map.mp hv with ⟨phname, hph, hveq⟩
    rw [← hveq]
    exact unnorm_vol_entry_pos out hrho hwt phname hph
  have hS : 0 < (unnorm_vol out).sum := by
    apply List.sum_pos _ hpos
    exact fun h => hne (List.map_eq_nil_iff.mp h)
  rw [reconstructed_vol_fracs, sum_map_div, div_self (ne_of_gt hS)]

theorem C9_vol_fracs_sum_to_one_witness :
    (testOutTwoPhase.ph ≠ [])
    ∧ (∀ j ∈ List.range testOutTwoPhase.ph.length,
        0 < sub_phase_rho testOutTwoPhase j)
    ∧ (∀ j ∈ List.range testOutTwoPhase.ph.length,
        0 < testOutTwoPhase.ph_frac_wt.getD j 0)
    ∧ (reconstructed_vol_fracs testOutTwoPhase).sum = 1 := by
  refine ⟨by decide, by decide, by decide, ?_⟩
  exact C9_vol_fracs_sum_to_one testOutTwoPhase (by decide) (by decide)
    (by decide)

theorem step_g_wt (solver : Solver) (cnv : Converter) (sys : String)
    (fr : Bool) (p t : ℚ) (st : PathState) :
    (garnet_step solver cnv sys fr p t false st).1.gt_wt_frac
      = (gt_single_point_calc_endmembers solver p t st.X st.Xoxides sys).gt_wt
        - st.gt_wt_frac_initial := rfl

theorem step_g_vol (solver : Solver) (cnv : Converter) (sys : String)
    (fr : Bool) (p t : ℚ) (st : PathState) :
    (garnet_step solver cnv sys fr p t false st).1.gt_vol_frac
      = (gt_single_point_calc_endmembers solver p t st.X st.Xoxides sys).gt_vol
        - st.gt_vol_frac_initial := rfl

theorem step_init_wt_set (solver : Solver) (cnv : Converter) (sys : String)
    (fr : Bool) (p t : ℚ) (st : PathState) :
    (garnet_step solver cnv sys fr p t true st).2.gt_wt_frac_initial
      = (gt_single_point_calc_endmembers solver p t st.X st.Xoxides sys).gt_wt
      := rfl

theorem step_init_vol_set (solver : Solver) (cnv : Converter) (sys : String)
    (fr : Bool) (p t : ℚ) (st : PathState) :
    (garnet_step solver cnv sys fr p t true st).2.gt_vol_frac_initial
      = (gt_single_point_calc_endmembers solver p t st.X st.Xoxides sys).gt_vol
      := rfl

theorem raws_cons (solver : Solver) (cnv : Converter) (sys : String)
    (fr : Bool) (pt : ℚ × ℚ) (rest : List (ℚ × ℚ)) (b : Bool)
    (st : PathState) :
    path_raws solver cnv sys fr (pt :: rest) b st
      = gt_single_point_calc_endmembers solver pt.1 pt.2 st.X st.Xoxides sys
        :: path_raws solver cnv sys fr rest false
            (garnet_step solver cnv sys fr pt.1 pt.2 b st).2 := rfl

theorem loop_records (solver : Solver) (cnv : Converter) (sys : String)
    (fr : Bool) :
    ∀ (path : List (ℚ × ℚ)) (st : PathState) (i : ℕ),
      i < (garnet_over_path_loop solver cnv sys fr path false st).length →
      (((garnet_over_path_loop solver cnv sys fr path false st).getD i
          default).gt_mol_frac
        = ((path_raws solver cnv sys fr path false st).getD i
            default).gt_frac - st.gt_mol_frac_initial)
      ∧ (((garnet_over_path_loop solver cnv sys fr path false st).getD i
          default).gt_wt_frac
        = ((path_raws solver cnv sys fr path false st).getD i
            default).gt_wt - st.gt_wt_frac_initial)
      ∧ (((garnet_over_path_loop solver cnv sys fr path false st).getD i
          default).gt_vol_frac
        = ((path_raws solver cnv sys fr path false st).getD i
            default).gt_vol - st.gt_vol_frac_initial)
      ∧ (((garnet_over_path_loop solver cnv sys fr path false st).getD i
          default).Mgi
        = (cnv (garnet_fractions ((path_raws solver cnv sys fr path false
            st).getD i default))).Mg)
      ∧ (((garnet_over_path_loop solver cnv sys fr path false st).getD i
          default).Mni
        = (cnv (garnet_fractions ((path_raws solver cnv sys fr path false
            st).getD i default))).Mn)
      ∧ (((garnet_over_path_loop solver cnv sys fr path false st).getD i
          default).Fei
        = (cnv (garnet_fractions ((path_raws solver cnv sys fr path false
            st).getD i default))).Fe)
      ∧ (((garnet_over_path_loop solver cnv sys fr path false st).getD i
          default).Cai
        = (cnv (garnet_fractions ((path_raws solver cnv sys fr path false
            st).getD i default))).Ca)
  | [], st, i => by
    intro h
    simp [garnet_over_path_loop] at h
  | pt :: rest, st, 0 => by
    intro h
    rw [loop_cons, raws_cons]
    simp only [List.getD_cons_zero]
    exact ⟨step_g_mol solver cnv sys fr pt.1 pt.2 st,
      step_g_wt solver cnv sys fr pt.1 pt.2 st,
      step_g_vol solver cnv sys fr pt.1 pt.2 st, rfl, rfl, rfl, rfl⟩
  | pt :: rest, st, (i + 1) => by
    intro h
    rw [loop_cons] at h
    rw [loop_cons, raws_cons]
    simp only [List.getD_cons_succ]
    have h2 : i < (garnet_over_path_loop solver cnv sys fr rest false
        (garnet_step solver cnv sys fr pt.1 pt.2 false st).2).length := by
      simpa using h
    have ih := loop_records solver cnv sys fr rest
      (garnet_step solver cnv sys fr pt.1 pt.2 false st).2 i h2
    rwa [step_init_mol_kept, step_init_wt_kept, step_init_vol_kept] at ih

/-- C7 (amended): each per-step record holds the baseline-zeroed mole,
weight and volume fractions (the raw single point value minus the step 0
raw value) and the element fractions computed from the raw end member
fractions of that step; the raw phase fractions themselves are not among
the returned columns. -/
theorem C7_record_contents (solver : Solver) (cnv : Converter)
    (P T Xc : List ℚ) (Xox : List String) (sys : String) (fr : Bool) :
    ∀ i, i < (garnet_over_path solver cnv P T Xc Xox sys fr).length →
      (((garnet_over_path solver cnv P T Xc Xox sys fr).getD i
          default).gt_mol_frac
        = ((path_raws solver cnv sys fr (P.zip T) true (init_state Xc
            Xox)).getD i default).gt_frac
          - ((path_raws solver cnv sys fr (P.zip T) true (init_state Xc
              Xox)).getD 0 default).gt_frac)
      ∧ (((garnet_over_path solver cnv P T Xc Xox sys fr).getD i
          default).gt_wt_frac
        = ((path_raws solver cnv sys fr (P.zip T) true (init_state Xc
            Xox)).getD i default).gt_wt
          - ((path_raws solver cnv sys fr (P.zip T) true (init_state Xc
              Xox)).getD 0 default).gt_wt)
      ∧ (((garnet_over_path solver cnv P T Xc Xox sys fr).getD i
          default).gt_vol_frac
        = ((path_raws solver cnv sys fr (P.zip T) true (init_state Xc
            Xox)).getD i default).gt_vol
          - ((path_raws solver cnv sys fr (P.zip T) true (init_state Xc
              Xox)).getD 0 default).gt_vol)
      ∧ (((garnet_over_path solver cnv P T Xc Xox sys fr).getD i
          default).Mgi
        = (cnv (garnet_fractions ((path_raws solver cnv sys fr (P.zip T)
            true (init_state Xc Xox)).getD i default))).Mg)
      ∧ (((garnet_over_path solver cnv P T Xc Xox sys fr).getD i
          default).Mni
        = (cnv (garnet_fractions ((path_raws solver cnv sys fr (P.zip T)
            true (init_state Xc Xox)).getD i default))).Mn)
      ∧ (((garnet_over_path solver cnv P T Xc Xox sys fr).getD i
          default).Fei
        = (cnv (garnet_fractions ((path_raws solver cnv sys fr (P.zip T)
            true (init_state Xc Xox)).getD i default))).Fe)
      ∧ (((garnet_over_path solver cnv P T Xc Xox sys fr).getD i
          default).Cai
        = (cnv (garnet_fractions ((path_raws solver cnv sys fr (P.zip T)
            true (init_state Xc Xox)).getD i default))).Ca) := by
  intro i h
  unfold garnet_over_path at h ⊢
  cases hz : P.zip T with
  | nil =>
    rw [hz] at h
    simp [garnet_over_path_loop] at h
  | cons pt rest =>
    rw [hz] at h
    rw [loop_cons, raws_cons]
    cases i with
    | zero =>
      simp only [List.getD_cons_zero]
      refine ⟨?_, ?_, ?_, rfl, rfl, rfl, rfl⟩
      · rw [step_g_mol_first]
        exact (sub_self _).symm
      · rw [step_g_wt_first]
        exact (sub_self _).symm
      · rw [step_g_vol_first]
        exact (sub_self _).symm
    | succ i2 =>
      simp only [List.getD_cons_succ, List.getD_cons_zero]
      rw [loop_cons] at h
      have h2 : i2 < (garnet_over_path_loop solver cnv sys fr rest false
          (garnet_step solver cnv sys fr pt.1 pt.2 true (init_state Xc
            Xox)).2).length := by
        simpa using h
      have ih := loop_records solver cnv sys fr rest
        (garnet_step solver cnv sys fr pt.1 pt.2 true (init_state Xc
          Xox)).2 i2 h2
      rwa [step_init_mol_set, step_init_wt_set, step_init_vol_set] at ih

theorem C7_record_contents_witness :
    (1 < (garnet_over_path testSolver conv0 [1/10, 3/20] [0, 0] [2, 3]
        ["SiO2", "Al2O3"] "wt" false).length)
    ∧ (((garnet_over_path testSolver conv0 [1/10, 3/20] [0, 0] [2, 3]
        ["SiO2", "Al2O3"] "wt" false).getD 1 default).gt_mol_frac
      = ((path_raws testSolver conv0 "wt" false (([1/10, 3/20] :
          List ℚ).zip [0, 0]) true (init_state [2, 3]
            ["SiO2", "Al2O3"])).getD 1 default).gt_frac
        - ((path_raws testSolver conv0 "wt" false (([1/10, 3/20] :
            List ℚ).zip [0, 0]) true (init_state [2, 3]
              ["SiO2", "Al2O3"])).getD 0 default).gt_frac) := by
  have hlen : (garnet_over_path testSolver conv0 [1/10, 3/20] [0, 0] [2, 3]
      ["SiO2", "Al2O3"] "wt" false).length = 2 := by
    rw [garnet_over_path, loop_length]
    rfl
  have h : 1 < (garnet_over_path testSolver conv0 [1/10, 3/20] [0, 0]
      [2, 3] ["SiO2", "Al2O3"] "wt" false).length := by
    rw [hlen]
    norm_num
  exact ⟨h, (C7_record_contents testSolver conv0 [1/10, 3/20] [0, 0] [2, 3]
    ["SiO2", "Al2O3"] "wt" false 1 h).1⟩

/-- C7 (counterexample): on a concrete 2-step run whose raw garnet mole
fraction at step 0 is 1/10, every numeric column of the step 0 record is
0: the raw (non-zeroed) fractions are not part of the returned per-step
record. -/
theorem C7_counterexample :
    (((garnet_over_path testSolver conv0 [1/10, 3/20] [0, 0] [2, 3]
        ["SiO2", "Al2O3"] "wt" false).getD 0 default).gt_mol_frac = 0
      ∧ ((garnet_over_path testSolver conv0 [1/10, 3/20] [0, 0] [2, 3]
          ["SiO2", "Al2O3"] "wt" false).getD 0 default).gt_wt_frac = 0
      ∧ ((garnet_over_path testSolver conv0 [1/10, 3/20] [0, 0] [2, 3]
          ["SiO2", "Al2O3"] "wt" false).getD 0 default).gt_vol_frac = 0
      ∧ ((garnet_over_path testSolver conv0 [1/10, 3/20] [0, 0] [2, 3]
          ["SiO2", "Al2O3"] "wt" false).getD 0 default).d_gt_mol_frac = 0
      ∧ ((garnet_over_path testSolver conv0 [1/10, 3/20] [0, 0] [2, 3]
          ["SiO2", "Al2O3"] "wt" false).getD 0 default).d_gt_wt_frac = 0
      ∧ ((garnet_over_path testSolver conv0 [1/10, 3/20] [0, 0] [2, 3]
          ["SiO2", "Al2O3"] "wt" false).getD 0 default).Mgi = 0
      ∧ ((garnet_over_path testSolver conv0 [1/10, 3/20] [0, 0] [2, 3]
          ["SiO2", "Al2O3"] "wt" false).getD 0 default).Mni = 0
      ∧ ((garnet_over_path testSolver conv0 [1/10, 3/20] [0, 0] [2, 3]
          ["SiO2", "Al2O3"] "wt" false).getD 0 default).Fei = 0
      ∧ ((garnet_over_path testSolver conv0 [1/10, 3/20] [0, 0] [2, 3]
          ["SiO2", "Al2O3"] "wt" false).getD 0 default).Cai = 0)
    ∧ ((path_raws testSolver conv0 "wt" false (([1/10, 3/20] :
        List ℚ).zip [0, 0]) true (init_state [2, 3]
          ["SiO2", "Al2O3"])).getD 0 default).gt_frac = 1/10
    ∧ (1/10 : ℚ) ≠ 0 := by
  have hz : (([1/10, 3/20] : List ℚ).zip [0, 0] : List (ℚ × ℚ))
      = [(1/10, 0), (3/20, 0)] := rfl
  constructor
  · rw [garnet_over_path, hz, loop_cons]
    simp only [List.getD_cons_zero]
    exact ⟨step_g_mol_first testSolver conv0 "wt" false (1/10) 0
        (init_state [2, 3] ["SiO2", "Al2O3"]),
      step_g_wt_first testSolver conv0 "wt" false (1/10) 0
        (init_state [2, 3] ["SiO2", "Al2O3"]),
      step_g_vol_first testSolver conv0 "wt" false (1/10) 0
        (init_state [2, 3] ["SiO2", "Al2O3"]),
      step_d_mol_off testSolver conv0 "wt" (1/10) 0 true
        (init_state [2, 3] ["SiO2", "Al2O3"]),
      step_d_wt_off testSolver conv0 "wt" (1/10) 0 true
        (init_state [2, 3] ["SiO2", "Al2O3"]), rfl, rfl, rfl, rfl⟩
  · constructor
    · rw [hz, raws_cons]
      simp only [List.getD_cons_zero]
      rw [testSolver_gt_frac]
    · norm_num
